import Mathlib

/-!
Verification of the identifier-generation, repository and dashboard logic of the
planning-voor-opdrachtgevers application (server/storage.ts, server/routes.ts,
shared/schema.ts), as a shallow embedding in Lean.

JavaScript primitives used by the code (String.prototype.padStart,
parseInt, Number.prototype.toString, String.prototype.startsWith,
String.prototype.substring, the falsiness-based default operator) are
modelled on Lean Strings, Nat and Int.  parseInt follows the ECMAScript
steps for an undefined radix: trim leading whitespace, read an optional
sign, switch to base 16 after a leading 0x or 0X, then take the longest
run of digits valid in the base; the result is NaN (modelled as none) when
that run is empty, and otherwise the signed integer value.
-/

namespace Planning

/-- JS String(n) for a natural number: fuel-based little-endian digit list,
structurally recursive so that the kernel can evaluate it. -/
def toRevDigitsAux : Nat → Nat → List Nat
  | 0, _ => []
  | _ + 1, 0 => []
  | fuel + 1, n + 1 => ((n + 1) % 10) :: toRevDigitsAux fuel ((n + 1) / 10)

/-- Little-endian base-10 digits of a natural number. -/
def natRevDigits (n : Nat) : List Nat := toRevDigitsAux n n

/-- JS Number.prototype.toString for a natural number. -/
def jsToString (n : Nat) : String :=
  if n = 0 then "0" else ⟨(natRevDigits n).reverse.map Nat.digitChar⟩

/-- JS String.prototype.padStart with pad character 0, as used by the
identifier generators. -/
def padStart (width : Nat) (s : String) : String :=
  if width ≤ s.data.length then s
  else ⟨List.replicate (width - s.data.length) '0' ++ s.data⟩

/-- JS String.prototype.startsWith. -/
def jsStartsWith (s p : String) : Bool := decide (s.data.take p.data.length = p.data)

/-- JS String.prototype.substring with a single argument. -/
def jsSubstring (s : String) (n : Nat) : String := ⟨s.data.drop n⟩

/-- The ECMAScript StrWhiteSpaceChar set parseInt trims: tab through
carriage return, space, no-break space and the byte-order mark. -/
def isJsSpace (c : Char) : Bool :=
  (9 ≤ c.toNat && c.toNat ≤ 13) || c.toNat == 32 || c.toNat == 160 || c.toNat == 65279

/-- The value of one character as a digit in the given base (0-9, then
letters case-insensitively), none when the character is no digit of that
base. -/
def digitValBase (base : Nat) (c : Char) : Option Nat :=
  let v : Option Nat :=
    if c.isDigit then some (c.toNat - 48)
    else if 97 ≤ c.toNat && c.toNat ≤ 122 then some (c.toNat - 87)
    else if 65 ≤ c.toNat && c.toNat ≤ 90 then some (c.toNat - 55)
    else none
  match v with
  | some d => if d < base then some d else none
  | none => none

/-- The values of the longest leading run of digits valid in the base. -/
def takeDigits (base : Nat) : List Char → List Nat
  | [] => []
  | c :: rest =>
    match digitValBase base c with
    | some d => d :: takeDigits base rest
    | none => []

/-- JS parseInt with an undefined radix: trim leading whitespace, read an
optional sign, detect a 0x / 0X base-16 marker, take the longest valid digit
run; NaN (none) exactly when that run is empty, which the code detects with
isNaN. -/
def jsParseInt (s : String) : Option Int :=
  let cs := s.data.dropWhile isJsSpace
  let neg : Bool := decide (cs.head? = some '-')
  let cs1 := if cs.head? = some '-' ∨ cs.head? = some '+' then cs.tail else cs
  let base : Nat := if cs1.take 2 = ['0', 'x'] ∨ cs1.take 2 = ['0', 'X'] then 16 else 10
  let cs2 := if cs1.take 2 = ['0', 'x'] ∨ cs1.take 2 = ['0', 'X'] then cs1.drop 2 else cs1
  let ds := takeDigits base cs2
  if ds = [] then none
  else
    let v : Int := ((ds.foldl (fun acc d => base * acc + d) 0 : Nat) : Int)
    some (if neg then -v else v)

/-- JS Number.prototype.toString on an integer value. -/
def jsIntToString (z : Int) : String :=
  if z < 0 then "-" ++ jsToString z.natAbs else jsToString z.toNat

/-- JS a || b for an optional string value: absent or empty strings are falsy. -/
def jsOrStr (x : Option String) (dflt : String) : String :=
  match x with
  | none => dflt
  | some s => if s = "" then dflt else s

/-- JS a || b for an optional numeric value: absent or zero is falsy. -/
def jsOrQ (x : Option ℚ) (dflt : ℚ) : ℚ :=
  match x with
  | none => dflt
  | some v => if v = 0 then dflt else v

/-- JS a || null for an optional numeric value (zero collapses to null). -/
def jsOrNullQ (x : Option ℚ) : Option ℚ :=
  match x with
  | none => none
  | some v => if v = 0 then none else some v

/-- JS a || null for an optional integer value (zero collapses to null). -/
def jsOrNullInt (x : Option Int) : Option Int :=
  match x with
  | none => none
  | some v => if v = 0 then none else some v

/-- JS a || null for an optional string value (the empty string collapses to null). -/
def jsOrNullStr (x : Option String) : Option String :=
  match x with
  | none => none
  | some s => if s = "" then none else some s

/-- Numeric decoding of a most-significant-digit-first digit list, the way a
left-to-right parse accumulates it. -/
def decodeDigits (l : List Nat) : Nat := l.foldl (fun acc d => 10 * acc + d) 0

lemma toRevDigitsAux_eq (fuel : Nat) : ∀ n : Nat, n ≤ fuel →
    toRevDigitsAux fuel n = Nat.digits 10 n := by
  induction fuel with
  | zero =>
    intro n hn
    have : n = 0 := Nat.le_zero.mp hn
    subst this
    simp [toRevDigitsAux]
  | succ f ih =>
    intro n hn
    match n with
    | 0 => simp [toRevDigitsAux]
    | m + 1 =>
      have hdiv : (m + 1) / 10 ≤ f := by
        have h1 : (m + 1) / 10 < m + 1 := Nat.div_lt_self (Nat.succ_pos m) (by omega)
        omega
      rw [show toRevDigitsAux (f + 1) (m + 1)
            = ((m + 1) % 10) :: toRevDigitsAux f ((m + 1) / 10) from rfl,
          ih _ hdiv, ← Nat.digits_def' (by omega : 1 < 10) (Nat.succ_pos m)]

lemma natRevDigits_eq (n : Nat) : natRevDigits n = Nat.digits 10 n :=
  toRevDigitsAux_eq n n le_rfl

lemma decodeDigits_reverse (l : List Nat) :
    decodeDigits l.reverse = Nat.ofDigits 10 l := by
  induction l with
  | nil => rfl
  | cons d t ih =>
    rw [List.reverse_cons, decodeDigits, List.foldl_append]
    simp only [List.foldl_cons, List.foldl_nil]
    rw [show List.foldl (fun acc d => 10 * acc + d) 0 t.reverse = decodeDigits t.reverse from rfl,
        ih, Nat.ofDigits_cons]
    ring

lemma digitChar_isDigit (d : Nat) (h : d < 10) : (Nat.digitChar d).isDigit = true := by
  interval_cases d <;> decide

lemma digitChar_toNat (d : Nat) (h : d < 10) : (Nat.digitChar d).toNat - 48 = d := by
  interval_cases d <;> decide

lemma natRevDigits_lt (n : Nat) : ∀ d ∈ natRevDigits n, d < 10 := by
  rw [natRevDigits_eq]
  exact fun d hd => Nat.digits_lt_base (by omega) hd

lemma jsToString_all_digits (n : Nat) : ∀ c ∈ (jsToString n).data, c.isDigit = true := by
  intro c hc
  unfold jsToString at hc
  by_cases h : n = 0
  · simp only [h, if_pos rfl] at hc
    have : c = '0' := by simpa using hc
    subst this; decide
  · simp only [if_neg h] at hc
    simp only [List.mem_map, List.mem_reverse] at hc
    obtain ⟨d, hd, rfl⟩ := hc
    exact digitChar_isDigit d (natRevDigits_lt n d hd)

lemma jsToString_ne_nil (n : Nat) : (jsToString n).data ≠ [] := by
  unfold jsToString
  by_cases h : n = 0
  · simp [h]
  · simp only [if_neg h]
    show List.map Nat.digitChar (natRevDigits n).reverse ≠ []
    intro hcon
    have hcon' : natRevDigits n = [] := by simpa using hcon
    rw [natRevDigits_eq] at hcon'
    exact Nat.digits_ne_nil_iff_ne_zero.mpr h hcon'

lemma foldl_digitChar (l : List Nat) (h : ∀ d ∈ l, d < 10) : ∀ a : Nat,
    List.foldl (fun acc c => 10 * acc + (c.toNat - 48)) a (l.map Nat.digitChar) =
    List.foldl (fun acc d => 10 * acc + d) a l := by
  induction l with
  | nil => intro a; rfl
  | cons d t ih =>
    intro a
    simp only [List.map_cons, List.foldl_cons]
    rw [digitChar_toNat d (h d (List.mem_cons_self d t))]
    exact ih (fun x hx => h x (List.mem_cons_of_mem d hx)) _

lemma foldl_zero_pad (k : Nat) :
    List.foldl (fun acc c => 10 * acc + (c.toNat - 48)) 0 (List.replicate k '0') = 0 := by
  induction k with
  | zero => rfl
  | succ m ih => simpa [List.replicate_succ] using ih

lemma padStart_data (w : Nat) (s : String) :
    ∃ k, (padStart w s).data = List.replicate k '0' ++ s.data := by
  unfold padStart
  split
  · exact ⟨0, by simp⟩
  · exact ⟨w - s.data.length, rfl⟩

/-- The characters the generators' own output can contain after the scope
start: decimal digit characters. -/
def goodDigit (c : Char) : Prop := ∃ d, d < 10 ∧ c = Nat.digitChar d

lemma goodDigit_facts (c : Char) (h : goodDigit c) :
    isJsSpace c = false ∧ c ≠ '-' ∧ c ≠ '+' ∧ c ≠ 'x' ∧ c ≠ 'X'
    ∧ digitValBase 10 c = some (c.toNat - 48) := by
  obtain ⟨d, hd, rfl⟩ := h
  interval_cases d <;>
    exact ⟨by decide, by decide, by decide, by decide, by decide, by decide⟩

lemma goodDigit_jsToString (n : Nat) : ∀ c ∈ (jsToString n).data, goodDigit c := by
  intro c hc
  unfold jsToString at hc
  by_cases h : n = 0
  · simp only [h, if_pos rfl] at hc
    have hce : c = '0' := by simpa using hc
    exact hce ▸ ⟨0, by omega, rfl⟩
  · simp only [if_neg h] at hc
    simp only [List.mem_map, List.mem_reverse] at hc
    obtain ⟨d, hd, rfl⟩ := hc
    exact ⟨d, natRevDigits_lt n d hd, rfl⟩

lemma goodDigit_padStart (w : Nat) (s : String) (h : ∀ c ∈ s.data, goodDigit c) :
    ∀ c ∈ (padStart w s).data, goodDigit c := by
  intro c hc
  obtain ⟨k, hk⟩ := padStart_data w s
  rw [hk] at hc
  rcases List.mem_append.mp hc with hm | hm
  · have hce := List.eq_of_mem_replicate hm
    exact hce ▸ ⟨0, by omega, rfl⟩
  · exact h c hm

lemma takeDigits_good (l : List Char) (h : ∀ c ∈ l, goodDigit c) :
    takeDigits 10 l = l.map (fun c => c.toNat - 48) := by
  induction l with
  | nil => rfl
  | cons c t ih =>
    rw [takeDigits, (goodDigit_facts c (h c (List.mem_cons_self c t))).2.2.2.2.2,
      List.map_cons, ih (fun x hx => h x (List.mem_cons_of_mem c hx))]

lemma dropWhile_space_good (l : List Char) (h : ∀ c ∈ l, goodDigit c) :
    l.dropWhile isJsSpace = l := by
  match l with
  | [] => rfl
  | c :: t =>
    simp [List.dropWhile_cons, (goodDigit_facts c (h c (List.mem_cons_self c t))).1]

/-- parseInt on a non-empty all-digit string: no whitespace to trim, no sign,
no hex marker, and every character contributes, so the result is the decimal
value. -/
lemma jsParseInt_good (l : List Char) (hne : l ≠ []) (h : ∀ c ∈ l, goodDigit c) :
    jsParseInt ⟨l⟩
      = some ((l.foldl (fun acc c => 10 * acc + (c.toNat - 48)) 0 : Nat) : Int) := by
  match l, hne with
  | c :: t, _ =>
    have hc := goodDigit_facts c (h c (List.mem_cons_self c t))
    have hdrop : (c :: t).dropWhile isJsSpace = c :: t := dropWhile_space_good _ h
    have hsign : ¬((c :: t).head? = some '-' ∨ (c :: t).head? = some '+') := by
      intro hcon
      rcases hcon with hcon | hcon <;> injection hcon with hcon
      · exact hc.2.1 hcon
      · exact hc.2.2.1 hcon
    have hneg : decide ((c :: t).head? = some '-') = false := by
      apply decide_eq_false
      intro hcon
      injection hcon with hcon
      exact hc.2.1 hcon
    have hhex : ¬((c :: t).take 2 = ['0', 'x'] ∨ (c :: t).take 2 = ['0', 'X']) := by
      intro hcon
      match t with
      | [] => rcases hcon with hcon | hcon <;> simp [List.take] at hcon
      | c2 :: t2 =>
        have hc2 := goodDigit_facts c2 (h c2 (List.mem_cons_of_mem c (List.mem_cons_self c2 t2)))
        rcases hcon with hcon | hcon <;> simp [List.take] at hcon
        · exact hc2.2.2.2.1 hcon.2
        · exact hc2.2.2.2.2.1 hcon.2
    unfold jsParseInt
    simp only [show (String.mk (c :: t)).data = c :: t from rfl, hdrop, hneg,
      if_neg hsign, if_neg hhex]
    rw [takeDigits_good _ h]
    rw [if_neg (by simp)]
    simp only [Bool.false_eq_true, if_false]
    rw [List.foldl_map]

/-- parseInt recovers the value of a zero-padded decimal representation. -/
lemma jsParseInt_padStart (w n : Nat) (hn : n ≠ 0) :
    jsParseInt (padStart w (jsToString n)) = some (n : Int) := by
  obtain ⟨k, hk⟩ := padStart_data w (jsToString n)
  have hne : (padStart w (jsToString n)).data ≠ [] := by
    rw [hk]
    intro hcon
    exact jsToString_ne_nil n (List.append_eq_nil.mp hcon).2
  have hval := jsParseInt_good (padStart w (jsToString n)).data hne
    (goodDigit_padStart w _ (goodDigit_jsToString n))
  rw [show (⟨(padStart w (jsToString n)).data⟩ : String) = padStart w (jsToString n)
        from rfl] at hval
  rw [hval]
  congr 2
  rw [hk, List.foldl_append, foldl_zero_pad]
  unfold jsToString
  rw [if_neg hn]
  show List.foldl (fun acc c => 10 * acc + (c.toNat - 48)) 0
      (List.map Nat.digitChar (natRevDigits n).reverse) = n
  rw [foldl_digitChar _ (fun d hd => natRevDigits_lt n d (by simpa using hd))]
  rw [show List.foldl (fun acc d => 10 * acc + d) 0 (natRevDigits n).reverse
        = decodeDigits (natRevDigits n).reverse from rfl]
  rw [natRevDigits_eq, decodeDigits_reverse, Nat.ofDigits_digits]

/-!
Identifier generators of DatabaseStorage (server/storage.ts).  Each generator
receives the customer/article/order/invoice number of the row with the
highest id (the SELECT ... ORDER BY id DESC LIMIT 1 result), none when the
table is empty, and the current calendar year where the code is year-scoped
(new Date().getFullYear()).
-/

namespace DatabaseStorage

/-- DatabaseStorage.generateCustomerNumber. -/
def generateCustomerNumber (latest : Option String) (year : Nat) : String :=
  let pfx := "KL-" ++ Planning.jsToString year ++ "-"
  match latest with
  | none => pfx ++ "0001"
  | some latestNumber =>
    if Planning.jsStartsWith latestNumber pfx then
      match Planning.jsParseInt (Planning.jsSubstring latestNumber pfx.data.length) with
      | some number => pfx ++ Planning.padStart 4 (Planning.jsIntToString (number + 1))
      | none => pfx ++ "0001"
    else
      pfx ++ "0001"

/-- DatabaseStorage.generateArticleNumber (global scope, width 6). -/
def generateArticleNumber (latest : Option String) : String :=
  let pfx := "ART-"
  match latest with
  | none => pfx ++ "000001"
  | some latestNumber =>
    if Planning.jsStartsWith latestNumber pfx then
      match Planning.jsParseInt (Planning.jsSubstring latestNumber pfx.data.length) with
      | some number => pfx ++ Planning.padStart 6 (Planning.jsIntToString (number + 1))
      | none => pfx ++ "000001"
    else
      pfx ++ "000001"

/-- DatabaseStorage.generateOrderNumber. -/
def generateOrderNumber (latest : Option String) (year : Nat) : String :=
  let pfx := "WB-" ++ Planning.jsToString year ++ "-"
  match latest with
  | none => pfx ++ "0001"
  | some latestNumber =>
    if Planning.jsStartsWith latestNumber pfx then
      match Planning.jsParseInt (Planning.jsSubstring latestNumber pfx.data.length) with
      | some number => pfx ++ Planning.padStart 4 (Planning.jsIntToString (number + 1))
      | none => pfx ++ "0001"
    else
      pfx ++ "0001"

/-- DatabaseStorage.generateInvoiceNumber. -/
def generateInvoiceNumber (latest : Option String) (year : Nat) : String :=
  let pfx := "F-" ++ Planning.jsToString year ++ "-"
  match latest with
  | none => pfx ++ "0001"
  | some latestNumber =>
    if Planning.jsStartsWith latestNumber pfx then
      match Planning.jsParseInt (Planning.jsSubstring latestNumber pfx.data.length) with
      | some number => pfx ++ Planning.padStart 4 (Planning.jsIntToString (number + 1))
      | none => pfx ++ "0001"
    else
      pfx ++ "0001"

end DatabaseStorage

/-- Creating N records sequentially (no concurrency): the codes assigned, in
creation order, when each create reads the code of the most recently inserted
row (none for the first create on an empty table) and stores the code the
generator returns. -/
def createSequence (gen : Option String → String) : Nat → List String
  | 0 => []
  | n + 1 =>
    let prev := createSequence gen n
    prev ++ [gen prev.getLast?]

/-- The numeric suffix of a code within a scope: the parsed trailing number
when the code carries the scope's expected code start, none otherwise. -/
def codeSuffixVal (pfx code : String) : Option Int :=
  if jsStartsWith code pfx then jsParseInt (jsSubstring code pfx.data.length) else none

lemma jsStartsWith_append (pfx rest : String) :
    jsStartsWith (pfx ++ rest) pfx = true := by
  unfold jsStartsWith
  rw [show (pfx ++ rest).data = pfx.data ++ rest.data from rfl]
  rw [List.take_left]
  simp

lemma jsSubstring_append (pfx rest : String) :
    jsSubstring (pfx ++ rest) pfx.data.length = rest := by
  unfold jsSubstring
  rw [show (pfx ++ rest).data = pfx.data ++ rest.data from rfl]
  rw [List.drop_left]

/-- The canonical generated code with numeric value m in a scope of the given
width. -/
def scopedCode (pfx : String) (width m : Nat) : String :=
  pfx ++ padStart width (jsToString m)

lemma codeSuffixVal_scopedCode (pfx : String) (width m : Nat) (hm : m ≠ 0) :
    codeSuffixVal pfx (scopedCode pfx width m) = some (m : Int) := by
  unfold codeSuffixVal scopedCode
  rw [jsStartsWith_append, if_pos rfl, jsSubstring_append, jsParseInt_padStart _ _ hm]

/-- The shared shape of the four generators, parameterised by scope string,
width and the literal first value. -/
def genericNext (pfx : String) (width : Nat) (firstVal : String) (latest : Option String) : String :=
  match latest with
  | none => pfx ++ firstVal
  | some latestNumber =>
    if jsStartsWith latestNumber pfx then
      match jsParseInt (jsSubstring latestNumber pfx.data.length) with
      | some number => pfx ++ padStart width (jsIntToString (number + 1))
      | none => pfx ++ firstVal
    else
      pfx ++ firstVal

lemma generateCustomerNumber_eq (latest : Option String) (year : Nat) :
    DatabaseStorage.generateCustomerNumber latest year
      = genericNext ("KL-" ++ jsToString year ++ "-") 4 "0001" latest := rfl

lemma generateArticleNumber_eq (latest : Option String) :
    DatabaseStorage.generateArticleNumber latest
      = genericNext "ART-" 6 "000001" latest := rfl

lemma generateOrderNumber_eq (latest : Option String) (year : Nat) :
    DatabaseStorage.generateOrderNumber latest year
      = genericNext ("WB-" ++ jsToString year ++ "-") 4 "0001" latest := rfl

lemma generateInvoiceNumber_eq (latest : Option String) (year : Nat) :
    DatabaseStorage.generateInvoiceNumber latest year
      = genericNext ("F-" ++ jsToString year ++ "-") 4 "0001" latest := rfl

lemma padStart_one_width4 : padStart 4 (jsToString 1) = "0001" := by decide

lemma padStart_one_width6 : padStart 6 (jsToString 1) = "000001" := by decide

lemma genericNext_some (pfx : String) (width : Nat) (firstVal : String) (s : String) :
    genericNext pfx width firstVal (some s) =
      (if jsStartsWith s pfx then
        match jsParseInt (jsSubstring s pfx.data.length) with
        | some number => pfx ++ padStart width (jsIntToString (number + 1))
        | none => pfx ++ firstVal
      else pfx ++ firstVal) := rfl

lemma jsIntToString_natCast_succ (m : Nat) :
    jsIntToString ((m : Int) + 1) = jsToString (m + 1) := by
  unfold jsIntToString
  rw [if_neg (by omega)]
  congr 1

lemma genericNext_step (pfx : String) (width : Nat) (firstVal : String)
    (m : Nat) (hm : m ≠ 0) :
    genericNext pfx width firstVal (some (scopedCode pfx width m))
      = scopedCode pfx width (m + 1) := by
  unfold scopedCode
  rw [genericNext_some, jsStartsWith_append, if_pos rfl, jsSubstring_append,
    jsParseInt_padStart _ _ hm]
  show pfx ++ padStart width (jsIntToString ((m : Int) + 1))
    = pfx ++ padStart width (jsToString (m + 1))
  rw [jsIntToString_natCast_succ]

lemma genericNext_none (pfx : String) (width : Nat) (firstVal : String)
    (hfirst : pfx ++ firstVal = scopedCode pfx width 1) :
    genericNext pfx width firstVal none = scopedCode pfx width 1 := hfirst

/-- Sequential creation from the empty table produces exactly the codes of
numeric value 1, 2, ..., N in creation order. -/
lemma createSequence_genericNext (pfx : String) (width : Nat) (firstVal : String)
    (hfirst : pfx ++ firstVal = scopedCode pfx width 1) (N : Nat) :
    createSequence (genericNext pfx width firstVal) N
      = (List.range N).map (fun k => scopedCode pfx width (k + 1)) := by
  induction N with
  | zero => rfl
  | succ n ih =>
    rw [createSequence, ih, List.range_succ, List.map_append]
    congr 1
    match n with
    | 0 => simpa using genericNext_none pfx width firstVal hfirst
    | m + 1 =>
      have hlast : ((List.range (m + 1)).map (fun k => scopedCode pfx width (k + 1))).getLast?
          = some (scopedCode pfx width (m + 1)) := by
        rw [List.range_succ, List.map_append]
        simp
      rw [hlast]
      simpa using genericNext_step pfx width firstVal (m + 1) (Nat.succ_ne_zero m)

lemma filterMap_map_fn {α β γ : Type} (f : α → β) (g : β → Option γ) (l : List α) :
    (l.map f).filterMap g = l.filterMap (fun x => g (f x)) := by
  induction l with
  | nil => rfl
  | cons a t ih => simp only [List.map_cons, List.filterMap_cons, ih]

lemma filterMap_some_fn {α β : Type} (f : α → β) (l : List α) :
    l.filterMap (fun x => some (f x)) = l.map f := by
  induction l with
  | nil => rfl
  | cons a t ih => simp only [List.filterMap_cons, List.map_cons, ih]

lemma suffixVals_createSequence (pfx : String) (width : Nat) (firstVal : String)
    (hfirst : pfx ++ firstVal = scopedCode pfx width 1) (N : Nat) :
    (createSequence (genericNext pfx width firstVal) N).filterMap (codeSuffixVal pfx)
      = (List.range N).map (fun k : Nat => ((k : Int) + 1)) := by
  rw [createSequence_genericNext pfx width firstVal hfirst, filterMap_map_fn]
  have h : (fun k => codeSuffixVal pfx (scopedCode pfx width (k + 1)))
      = (fun k : Nat => some ((k : Int) + 1)) := by
    funext k
    exact codeSuffixVal_scopedCode pfx width (k + 1) (Nat.succ_ne_zero k)
  rw [h, filterMap_some_fn]

lemma pairwise_suffix_createSequence (pfx : String) (width : Nat) (firstVal : String)
    (hfirst : pfx ++ firstVal = scopedCode pfx width 1) (N : Nat) :
    ((createSequence (genericNext pfx width firstVal) N).filterMap
        (codeSuffixVal pfx)).Pairwise (· < ·) := by
  rw [suffixVals_createSequence pfx width firstVal hfirst N]
  refine (List.pairwise_lt_range N).map _ (fun a b hab => ?_)
  show (a : Int) + 1 < (b : Int) + 1
  omega

/-!
Data model (shared/schema.ts).  Timestamps are modelled by their calendar year
and zero-based month (what new Date(...).getFullYear() / .getMonth() expose),
which is all the verified code reads from them.  Real-valued columns are
modelled by ℚ.  Insert types mirror the drizzle-zod insert schemas (all
columns minus id and createdAt; columns with a default or nullable become
optional).  Patch types model Partial of the insert type: a some field is
present in the partial payload (SQL NULL values, which no claim depends on,
are not distinguished from the field value).
-/

structure JsDate where
  year : Int
  month : Nat
deriving DecidableEq, Repr

structure Customer where
  id : Nat
  customerNumber : String
  name : String
  type : String
  street : String
  postalCode : String
  city : String
  email : Option String
  phone : Option String
  status : String
  createdAt : JsDate
deriving DecidableEq, Repr

structure InsertCustomer where
  customerNumber : String
  name : String
  type : String
  street : String
  postalCode : String
  city : String
  email : Option String
  phone : Option String
  status : Option String
deriving DecidableEq, Repr

structure CustomerPatch where
  customerNumber : Option String
  name : Option String
  type : Option String
  street : Option String
  postalCode : Option String
  city : Option String
  email : Option String
  phone : Option String
  status : Option String
deriving DecidableEq, Repr

/-- The all-absent partial payload. -/
def CustomerPatch.empty : CustomerPatch :=
  { customerNumber := none, name := none, type := none, street := none,
    postalCode := none, city := none, email := none, phone := none, status := none }

structure Material where
  id : Nat
  articleNumber : String
  name : String
  brand : Option String
  category : String
  price : ℚ
  stock : Option Int
  minStock : Option Int
  supplier : Option String
  createdAt : JsDate
deriving DecidableEq, Repr

structure InsertMaterial where
  articleNumber : String
  name : String
  brand : Option String
  category : String
  price : ℚ
  stock : Option Int
  minStock : Option Int
  supplier : Option String
deriving DecidableEq, Repr

structure MaterialPatch where
  articleNumber : Option String
  name : Option String
  brand : Option String
  category : Option String
  price : Option ℚ
  stock : Option Int
  minStock : Option Int
  supplier : Option String
deriving DecidableEq, Repr

structure MaterialLine where
  materialId : Nat
  quantity : ℚ
  price : ℚ
deriving DecidableEq, Repr

structure WorkOrder where
  id : Nat
  orderNumber : String
  title : String
  description : Option String
  customerId : Nat
  date : JsDate
  status : String
  laborHours : Option ℚ
  notes : Option String
  materials : Option (List MaterialLine)
  photos : Option (List String)
  createdAt : JsDate
deriving DecidableEq, Repr

structure InsertWorkOrder where
  orderNumber : String
  title : String
  description : Option String
  customerId : Nat
  date : JsDate
  status : Option String
  laborHours : Option ℚ
  notes : Option String
  materials : Option (List MaterialLine)
  photos : Option (List String)
deriving DecidableEq, Repr

structure WorkOrderPatch where
  orderNumber : Option String
  title : Option String
  description : Option String
  customerId : Option Nat
  date : Option JsDate
  status : Option String
  laborHours : Option ℚ
  notes : Option String
  materials : Option (List MaterialLine)
  photos : Option (List String)
deriving DecidableEq, Repr

def WorkOrderPatch.empty : WorkOrderPatch :=
  { orderNumber := none, title := none, description := none, customerId := none,
    date := none, status := none, laborHours := none, notes := none,
    materials := none, photos := none }

structure InvoiceItem where
  description : String
  quantity : ℚ
  price : ℚ
deriving DecidableEq, Repr

structure Invoice where
  id : Nat
  invoiceNumber : String
  customerId : Nat
  workOrderId : Option Nat
  date : JsDate
  dueDate : JsDate
  amount : ℚ
  status : String
  items : Option (List InvoiceItem)
  createdAt : JsDate
deriving DecidableEq, Repr

structure InsertInvoice where
  invoiceNumber : String
  customerId : Nat
  workOrderId : Option Nat
  date : JsDate
  dueDate : JsDate
  amount : ℚ
  status : Option String
  items : Option (List InvoiceItem)
deriving DecidableEq, Repr

structure InvoicePatch where
  invoiceNumber : Option String
  customerId : Option Nat
  workOrderId : Option Nat
  date : Option JsDate
  dueDate : Option JsDate
  amount : Option ℚ
  status : Option String
  items : Option (List InvoiceItem)
deriving DecidableEq, Repr

/-!
MemStorage (server/storage.ts): an in-memory Map per entity plus an id
counter.  The Map is modelled as a list of records with distinct ids;
Map.prototype.set on an existing id is the in-place replacement below.
The updated record is the JS spread of the existing record and the partial
payload: every field present in the payload overwrites the stored one,
including the code field.
-/

def mergeCustomer (c : Customer) (p : CustomerPatch) : Customer :=
  { id := c.id
    customerNumber := p.customerNumber.getD c.customerNumber
    name := p.name.getD c.name
    type := p.type.getD c.type
    street := p.street.getD c.street
    postalCode := p.postalCode.getD c.postalCode
    city := p.city.getD c.city
    email := match p.email with | some e => some e | none => c.email
    phone := match p.phone with | some v => some v | none => c.phone
    status := p.status.getD c.status
    createdAt := c.createdAt }

def mergeMaterial (m : Material) (p : MaterialPatch) : Material :=
  { id := m.id
    articleNumber := p.articleNumber.getD m.articleNumber
    name := p.name.getD m.name
    brand := match p.brand with | some b => some b | none => m.brand
    category := p.category.getD m.category
    price := p.price.getD m.price
    stock := match p.stock with | some s => some s | none => m.stock
    minStock := match p.minStock with | some s => some s | none => m.minStock
    supplier := match p.supplier with | some s => some s | none => m.supplier
    createdAt := m.createdAt }

def mergeWorkOrder (w : WorkOrder) (p : WorkOrderPatch) : WorkOrder :=
  { id := w.id
    orderNumber := p.orderNumber.getD w.orderNumber
    title := p.title.getD w.title
    description := match p.description with | some d => some d | none => w.description
    customerId := p.customerId.getD w.customerId
    date := p.date.getD w.date
    status := p.status.getD w.status
    laborHours := match p.laborHours with | some h => some h | none => w.laborHours
    notes := match p.notes with | some n => some n | none => w.notes
    materials := match p.materials with | some m => some m | none => w.materials
    photos := match p.photos with | some l => some l | none => w.photos
    createdAt := w.createdAt }

def mergeInvoice (i : Invoice) (p : InvoicePatch) : Invoice :=
  { id := i.id
    invoiceNumber := p.invoiceNumber.getD i.invoiceNumber
    customerId := p.customerId.getD i.customerId
    workOrderId := match p.workOrderId with | some w => some w | none => i.workOrderId
    date := p.date.getD i.date
    dueDate := p.dueDate.getD i.dueDate
    amount := p.amount.getD i.amount
    status := p.status.getD i.status
    items := match p.items with | some l => some l | none => i.items
    createdAt := i.createdAt }

namespace MemStorage

/-- MemStorage.createCustomer: id from the counter, customer number
KL-<id padded to 5>, defaults for the optional fields. -/
def createCustomer (now : JsDate) (counter : Nat) (d : InsertCustomer) : Customer :=
  { id := counter
    customerNumber := "KL-" ++ padStart 5 (jsToString counter)
    name := d.name
    type := d.type
    street := d.street
    postalCode := d.postalCode
    city := d.city
    email := jsOrNullStr d.email
    phone := jsOrNullStr d.phone
    status := jsOrStr d.status "Actief"
    createdAt := now }

/-- MemStorage.createMaterial: article number ART-<id padded to 5>. -/
def createMaterial (now : JsDate) (counter : Nat) (d : InsertMaterial) : Material :=
  { id := counter
    articleNumber := "ART-" ++ padStart 5 (jsToString counter)
    name := d.name
    brand := jsOrNullStr d.brand
    category := d.category
    price := d.price
    stock := jsOrNullInt d.stock
    minStock := jsOrNullInt d.minStock
    supplier := jsOrNullStr d.supplier
    createdAt := now }

/-- MemStorage.createWorkOrder: order number WB-<year>-<id padded to 4>;
the draft's own date and photos fields are kept by the spread. -/
def createWorkOrder (now : JsDate) (year : Nat) (counter : Nat) (d : InsertWorkOrder) : WorkOrder :=
  { id := counter
    orderNumber := "WB-" ++ jsToString year ++ "-" ++ padStart 4 (jsToString counter)
    title := d.title
    description := jsOrNullStr d.description
    customerId := d.customerId
    date := d.date
    status := jsOrStr d.status "Ingepland"
    laborHours := jsOrNullQ d.laborHours
    notes := jsOrNullStr d.notes
    materials := some (d.materials.getD [])
    photos := d.photos
    createdAt := now }

/-- MemStorage.createInvoice: invoice number F-<year>-<id padded to 4>. -/
def createInvoice (now : JsDate) (year : Nat) (counter : Nat) (d : InsertInvoice) : Invoice :=
  { id := counter
    invoiceNumber := "F-" ++ jsToString year ++ "-" ++ padStart 4 (jsToString counter)
    customerId := d.customerId
    workOrderId := match d.workOrderId with | some w => if w = 0 then none else some w | none => none
    date := d.date
    dueDate := d.dueDate
    amount := d.amount
    status := jsOrStr d.status "Concept"
    items := some (d.items.getD [])
    createdAt := now }

/-- MemStorage.updateCustomer: get from the Map, return undefined when the id
is missing, otherwise spread-merge and set. -/
def updateCustomer (customers : List Customer) (id : Nat) (p : CustomerPatch) :
    Option Customer × List Customer :=
  match customers.find? (fun c => c.id == id) with
  | none => (none, customers)
  | some c =>
    let updated := mergeCustomer c p
    (some updated, customers.map (fun x => if x.id == id then updated else x))

/-- MemStorage.updateWorkOrder. -/
def updateWorkOrder (workOrders : List WorkOrder) (id : Nat) (p : WorkOrderPatch) :
    Option WorkOrder × List WorkOrder :=
  match workOrders.find? (fun w => w.id == id) with
  | none => (none, workOrders)
  | some w =>
    let updated := mergeWorkOrder w p
    (some updated, workOrders.map (fun x => if x.id == id then updated else x))

/-- The order numbers assigned by iterating MemStorage.createWorkOrder over a
list of drafts, starting at a given counter (the constructor sets it to 1). -/
def createWorkOrders (now : JsDate) (year : Nat) (counter : Nat) :
    List InsertWorkOrder → List WorkOrder
  | [] => []
  | d :: ds => createWorkOrder now year counter d :: createWorkOrders now year (counter + 1) ds

end MemStorage

/-!
DatabaseStorage (server/storage.ts).  The storage engine is modelled by the
table contents plus a failure flag: fail = true means the query the method
runs throws (storage unreachable, query error).  Every non-create method
wraps its query in try/catch and converts a thrown error into undefined, an
empty list or false; only the create methods rethrow.
-/

structure DbEnv where
  fail : Bool
deriving DecidableEq, Repr

/-- Insertion into a list sorted by descending id. -/
def insertDescBy {α : Type} (idOf : α → Nat) (x : α) : List α → List α
  | [] => [x]
  | y :: ys => if idOf y ≤ idOf x then x :: y :: ys else y :: insertDescBy idOf x ys

/-- ORDER BY id DESC over a table. -/
def sortByIdDesc {α : Type} (idOf : α → Nat) (l : List α) : List α :=
  l.foldr (insertDescBy idOf) []

/-- The serial id the database assigns to the next inserted row. -/
def nextSerialId {α : Type} (idOf : α → Nat) (l : List α) : Nat :=
  (l.map idOf).foldr max 0 + 1

namespace DatabaseStorage

/-- The SELECT ... ORDER BY id DESC LIMIT 1 lookup the generators run:
the code column of the row with the highest id. -/
def latestBy {α : Type} (idOf : α → Nat) (codeOf : α → String) (l : List α) : Option String :=
  (sortByIdDesc idOf l).head?.map codeOf

/-- DatabaseStorage.getCustomer: undefined on a missing id, and the catch
block also returns undefined when the query throws. -/
def getCustomer (env : DbEnv) (customers : List Customer) (id : Nat) : Option Customer :=
  if env.fail then none
  else customers.find? (fun c => c.id == id)

/-- DatabaseStorage.getAllCustomers: the catch block returns an empty list
when the query throws. -/
def getAllCustomers (env : DbEnv) (customers : List Customer) : List Customer :=
  if env.fail then []
  else sortByIdDesc Customer.id customers

/-- DatabaseStorage.createCustomer: generates the customer number, inserts,
and rethrows a storage error. -/
def createCustomer (env : DbEnv) (now : JsDate) (year : Nat) (customers : List Customer)
    (d : InsertCustomer) : Except Unit Customer :=
  if env.fail then Except.error ()
  else
    let customerNumber := generateCustomerNumber (latestBy Customer.id Customer.customerNumber customers) year
    Except.ok
      { id := nextSerialId Customer.id customers
        customerNumber := customerNumber
        name := d.name
        type := d.type
        street := d.street
        postalCode := d.postalCode
        city := d.city
        email := d.email
        phone := d.phone
        status := d.status.getD "Actief"
        createdAt := now }

/-- DatabaseStorage.updateCustomer: db.update(...).set(customerData) writes
exactly the columns present in the partial payload; the catch block converts
a thrown error into undefined, and an id that matches no row yields
undefined as well. -/
def updateCustomer (env : DbEnv) (customers : List Customer) (id : Nat) (p : CustomerPatch) :
    Option Customer :=
  if env.fail then none
  else
    match customers.find? (fun c => c.id == id) with
    | none => none
    | some c => some (mergeCustomer c p)

/-- DatabaseStorage.deleteCustomer: true when a row was deleted, false when
none matched, and the catch block also returns false when the query throws. -/
def deleteCustomer (env : DbEnv) (customers : List Customer) (id : Nat) : Bool :=
  if env.fail then false
  else customers.any (fun c => c.id == id)

/-- DatabaseStorage.createWorkOrder: the INSERT lists the columns
order_number, title, description, customer_id, date, status, labor_hours,
notes, materials, binding date to NOW() — the draft's date is never among
the query parameters — and leaving photos out entirely. -/
def createWorkOrderRow (now : JsDate) (newId : Nat) (orderNumber : String)
    (d : InsertWorkOrder) : WorkOrder :=
  { id := newId
    orderNumber := orderNumber
    title := d.title
    description := d.description
    customerId := d.customerId
    date := now
    status := jsOrStr d.status "Ingepland"
    laborHours := some (jsOrQ d.laborHours 0)
    notes := some (jsOrStr d.notes "")
    materials := some (d.materials.getD [])
    photos := none
    createdAt := now }

/-- DatabaseStorage.createWorkOrder including the order-number generation and
the rethrow of storage errors. -/
def createWorkOrder (env : DbEnv) (now : JsDate) (year : Nat) (workOrders : List WorkOrder)
    (d : InsertWorkOrder) : Except Unit WorkOrder :=
  if env.fail then Except.error ()
  else
    let orderNumber := generateOrderNumber (latestBy WorkOrder.id WorkOrder.orderNumber workOrders) year
    Except.ok (createWorkOrderRow now (nextSerialId WorkOrder.id workOrders) orderNumber d)

/-- The dynamic SET clause of DatabaseStorage.updateWorkOrder: only the
fields title, description, customer_id, status, labor_hours, notes,
materials and date have a branch in the builder, so only those columns can
change; the payload's orderNumber and photos fields are never written. -/
def applyWorkOrderPatch (w : WorkOrder) (p : WorkOrderPatch) : WorkOrder :=
  { id := w.id
    orderNumber := w.orderNumber
    title := p.title.getD w.title
    description := match p.description with | some d => some d | none => w.description
    customerId := p.customerId.getD w.customerId
    date := p.date.getD w.date
    status := p.status.getD w.status
    laborHours := match p.laborHours with | some h => some h | none => w.laborHours
    notes := match p.notes with | some n => some n | none => w.notes
    materials := match p.materials with | some m => some m | none => w.materials
    photos := w.photos
    createdAt := w.createdAt }

/-- DatabaseStorage.updateWorkOrder: fetch the existing row (undefined when
missing), build the SET clause, return the updated row; the catch block
converts a thrown error into undefined. -/
def updateWorkOrder (env : DbEnv) (workOrders : List WorkOrder) (id : Nat) (p : WorkOrderPatch) :
    Option WorkOrder :=
  if env.fail then none
  else
    match workOrders.find? (fun w => w.id == id) with
    | none => none
    | some w => some (applyWorkOrderPatch w p)

/-- DatabaseStorage.createInvoice with the rethrow of storage errors. -/
def createInvoice (env : DbEnv) (now : JsDate) (year : Nat) (invoices : List Invoice)
    (d : InsertInvoice) : Except Unit Invoice :=
  if env.fail then Except.error ()
  else
    let invoiceNumber := generateInvoiceNumber (latestBy Invoice.id Invoice.invoiceNumber invoices) year
    Except.ok
      { id := nextSerialId Invoice.id invoices
        invoiceNumber := invoiceNumber
        customerId := d.customerId
        workOrderId := d.workOrderId
        date := d.date
        dueDate := d.dueDate
        amount := d.amount
        status := d.status.getD "Concept"
        items := d.items
        createdAt := now }

/-- DatabaseStorage.updateInvoice (set-based, like updateCustomer). -/
def updateInvoice (env : DbEnv) (invoices : List Invoice) (id : Nat) (p : InvoicePatch) :
    Option Invoice :=
  if env.fail then none
  else
    match invoices.find? (fun i => i.id == id) with
    | none => none
    | some i => some (mergeInvoice i p)

end DatabaseStorage

/-!
Routes (server/routes.ts).  Every handler wraps its body in try/catch and
maps a thrown error to a 500 response; the storage methods above throw only
from create, so for the other handlers the outcome is decided by the
absent-value convention.
-/

inductive RouteOutcome (α : Type) where
  | ok : α → RouteOutcome α
  | created : α → RouteOutcome α
  | noContent : RouteOutcome α
  | badRequest : String → RouteOutcome α
  | notFound : String → RouteOutcome α
  | serverError : String → RouteOutcome α
deriving DecidableEq, Repr

/-- PUT /api/customers/:id. -/
def putCustomerRoute (env : DbEnv) (customers : List Customer) (id : Nat) (p : CustomerPatch) :
    RouteOutcome Customer :=
  match DatabaseStorage.updateCustomer env customers id p with
  | none => RouteOutcome.notFound "Customer not found"
  | some c => RouteOutcome.ok c

/-- POST /api/customers. -/
def postCustomerRoute (env : DbEnv) (now : JsDate) (year : Nat) (customers : List Customer)
    (d : InsertCustomer) : RouteOutcome Customer :=
  match DatabaseStorage.createCustomer env now year customers d with
  | Except.error _ => RouteOutcome.serverError "Error creating customer"
  | Except.ok c => RouteOutcome.created c

/-- DELETE /api/customers/:id. -/
def deleteCustomerRoute (env : DbEnv) (customers : List Customer) (id : Nat) :
    RouteOutcome Unit :=
  if DatabaseStorage.deleteCustomer env customers id then RouteOutcome.noContent
  else RouteOutcome.notFound "Customer not found"

/-- The body of PUT /api/workorders/:id/complete: {notes, laborHours, photos}
destructured from req.body; an absent field is undefined. -/
structure CompleteBody where
  notes : Option String
  laborHours : Option ℚ
  photos : Option (List String)
deriving DecidableEq, Repr

/-- PUT /api/workorders/:id/complete: reject when laborHours is undefined,
then call storage.updateWorkOrder with status Voltooid plus the submitted
notes, laborHours and photos, and report 404 when it returns undefined. -/
def completeWorkOrderRoute (env : DbEnv) (workOrders : List WorkOrder) (id : Nat)
    (body : CompleteBody) : RouteOutcome WorkOrder :=
  match body.laborHours with
  | none => RouteOutcome.badRequest "Labor hours are required"
  | some _ =>
    match DatabaseStorage.updateWorkOrder env workOrders id
        { orderNumber := none, title := none, description := none, customerId := none,
          date := none, status := some "Voltooid", laborHours := body.laborHours,
          notes := body.notes, materials := none, photos := body.photos } with
    | none => RouteOutcome.notFound "Work order not found"
    | some w => RouteOutcome.ok w

/-!
GET /api/dashboard/stats (server/routes.ts): month-by-month revenue for the
current year and the work-order status buckets.
-/

def monthNames : List String :=
  ["Jan", "Feb", "Mrt", "Apr", "Mei", "Jun", "Jul", "Aug", "Sep", "Okt", "Nov", "Dec"]

/-- The monthlyRevenue array: for each of the twelve months, the sum of
amount over the invoices of that month of the current year whose status is
not Concept. -/
def monthlyRevenue (currentYear : Int) (invoices : List Invoice) : List (String × ℚ) :=
  (List.range 12).map (fun month =>
    let amount := (invoices.filter (fun inv =>
        inv.date.month == month && inv.date.year == currentYear
          && inv.status != "Concept")).foldl
      (fun sum inv => sum + jsOrQ (some inv.amount) 0) 0
    (monthNames.getD month "", amount))

structure WorkOrdersByStatus where
  nieuw : Nat
  inBehandeling : Nat
  voltooid : Nat
deriving DecidableEq, Repr

/-- The workOrdersByStatus buckets of the dashboard handler: they filter on
the literal statuses Nieuw, In behandeling and Voltooid. -/
def workOrdersByStatus (workOrders : List WorkOrder) : WorkOrdersByStatus :=
  { nieuw := (workOrders.filter (fun wo => wo.status == "Nieuw")).length
    inBehandeling := (workOrders.filter (fun wo => wo.status == "In behandeling")).length
    voltooid := (workOrders.filter (fun wo => wo.status == "Voltooid")).length }

/-- totalWorkOrders of the dashboard response. -/
def totalWorkOrders (workOrders : List WorkOrder) : Nat := workOrders.length

/-!
Code-format patterns.  A pattern is a sequence of items, each a literal
character or a decimal-digit position; matching is exact (same length, every
item satisfied).  The patterns named in the specification are KL-YYYY-dddd,
ART-dddddd, WB-YYYY-dddd and F-YYYY-dddd.
-/

inductive PatItem where
  | lit : Char → PatItem
  | dig : PatItem
deriving DecidableEq, Repr

def matchesPat : List PatItem → List Char → Bool
  | [], [] => true
  | PatItem.lit c :: ps, x :: xs => (x == c) && matchesPat ps xs
  | PatItem.dig :: ps, x :: xs => x.isDigit && matchesPat ps xs
  | _, _ => false

def litPat (s : String) : List PatItem := s.data.map PatItem.lit

/-- KL-YYYY-dddd. -/
def klPattern : List PatItem :=
  litPat "KL-" ++ List.replicate 4 PatItem.dig ++ litPat "-" ++ List.replicate 4 PatItem.dig

/-- ART-dddddd. -/
def artPattern : List PatItem := litPat "ART-" ++ List.replicate 6 PatItem.dig

/-- WB-YYYY-dddd. -/
def wbPattern : List PatItem :=
  litPat "WB-" ++ List.replicate 4 PatItem.dig ++ litPat "-" ++ List.replicate 4 PatItem.dig

/-- F-YYYY-dddd. -/
def fPattern : List PatItem :=
  litPat "F-" ++ List.replicate 4 PatItem.dig ++ litPat "-" ++ List.replicate 4 PatItem.dig

/-- KL-ddddd, the shape MemStorage customer numbers actually have. -/
def kl5Pattern : List PatItem := litPat "KL-" ++ List.replicate 5 PatItem.dig

/-- ART-ddddd, the shape MemStorage article numbers actually have. -/
def art5Pattern : List PatItem := litPat "ART-" ++ List.replicate 5 PatItem.dig

lemma matchesPat_lit_append (l : List Char) (ps : List PatItem) (xs : List Char) :
    matchesPat (l.map PatItem.lit ++ ps) (l ++ xs) = matchesPat ps xs := by
  induction l with
  | nil => rfl
  | cons c t ih =>
    simp only [List.map_cons, List.cons_append, matchesPat, beq_self_eq_true, Bool.true_and]
    exact ih

lemma matchesPat_digits_append (ds : List Char) (hd : ∀ c ∈ ds, c.isDigit = true)
    (ps : List PatItem) (xs : List Char) :
    matchesPat (List.replicate ds.length PatItem.dig ++ ps) (ds ++ xs) = matchesPat ps xs := by
  induction ds with
  | nil => rfl
  | cons c t ih =>
    simp only [List.length_cons, List.replicate_succ, List.cons_append, matchesPat,
      hd c (List.mem_cons_self c t), Bool.true_and]
    exact ih (fun x hx => hd x (List.mem_cons_of_mem c hx))

lemma matchesPat_digits_append' (k : Nat) (ds : List Char) (hlen : ds.length = k)
    (hd : ∀ c ∈ ds, c.isDigit = true) (ps : List PatItem) (xs : List Char) :
    matchesPat (List.replicate k PatItem.dig ++ ps) (ds ++ xs) = matchesPat ps xs := by
  subst hlen
  exact matchesPat_digits_append ds hd ps xs

lemma jsToString_length_le (n k : Nat) (hk : 1 ≤ k) (h : n < 10 ^ k) :
    (jsToString n).data.length ≤ k := by
  unfold jsToString
  by_cases hn : n = 0
  · simpa [hn] using hk
  · simp only [if_neg hn, List.length_map, List.length_reverse]
    rw [natRevDigits_eq, Nat.digits_len 10 n (by omega) hn]
    have := Nat.log_lt_of_lt_pow hn h
    omega

lemma jsToString_year_length (year : Nat) (h1 : 1000 ≤ year) (h2 : year ≤ 9999) :
    (jsToString year).data.length = 4 := by
  unfold jsToString
  rw [if_neg (by omega)]
  simp only [List.length_map, List.length_reverse]
  rw [natRevDigits_eq, Nat.digits_len 10 year (by omega) (by omega)]
  have hlow : 3 ≤ Nat.log 10 year :=
    (Nat.pow_le_iff_le_log (by omega) (by omega)).mp (by omega)
  have hhigh : Nat.log 10 year < 4 :=
    Nat.log_lt_of_lt_pow (by omega) (by omega)
  omega

lemma padStart_length_of_le (w : Nat) (s : String) (h : s.data.length ≤ w) :
    (padStart w s).data.length = w := by
  unfold padStart
  split
  · omega
  · simp only [List.length_append, List.length_replicate]
    omega

lemma padStart_all_digits (w : Nat) (s : String) (h : ∀ c ∈ s.data, c.isDigit = true) :
    ∀ c ∈ (padStart w s).data, c.isDigit = true := by
  intro c hc
  obtain ⟨k, hk⟩ := padStart_data w s
  rw [hk] at hc
  rcases List.mem_append.mp hc with hm | hm
  · have := List.eq_of_mem_replicate hm
    subst this; decide
  · exact h c hm

/-- A padded sequence number of value below the width's capacity is exactly
width digit characters. -/
lemma padded_digits_shape (w m : Nat) (hw : 1 ≤ w) (hm : m < 10 ^ w) :
    (padStart w (jsToString m)).data.length = w
    ∧ ∀ c ∈ (padStart w (jsToString m)).data, c.isDigit = true :=
  ⟨padStart_length_of_le w _ (jsToString_length_le m w hw hm),
   padStart_all_digits w _ (jsToString_all_digits m)⟩

lemma matchesPat_year_scoped (tag : String) (year m : Nat)
    (hy1 : 1000 ≤ year) (hy2 : year ≤ 9999) (hm : m < 10 ^ 4) :
    matchesPat
      (litPat tag ++ List.replicate 4 PatItem.dig ++ litPat "-" ++ List.replicate 4 PatItem.dig)
      (scopedCode (tag ++ jsToString year ++ "-") 4 m).data = true := by
  have hcode : (scopedCode (tag ++ jsToString year ++ "-") 4 m).data
      = tag.data ++ ((jsToString year).data ++ ("-".data
          ++ ((padStart 4 (jsToString m)).data ++ []))) := by
    show (((tag ++ jsToString year ++ "-") ++ padStart 4 (jsToString m)) : String).data = _
    rw [show ∀ a b : String, (a ++ b).data = a.data ++ b.data from fun a b => rfl]
    rw [show ∀ a b : String, (a ++ b).data = a.data ++ b.data from fun a b => rfl]
    rw [show ∀ a b : String, (a ++ b).data = a.data ++ b.data from fun a b => rfl]
    simp [List.append_assoc]
  rw [hcode]
  have h4 := jsToString_year_length year hy1 hy2
  have hpad := padded_digits_shape 4 m (by omega) hm
  rw [show litPat tag ++ List.replicate 4 PatItem.dig ++ litPat "-"
        ++ List.replicate 4 PatItem.dig
      = litPat tag ++ (List.replicate 4 PatItem.dig ++ (litPat "-"
        ++ (List.replicate 4 PatItem.dig ++ []))) by simp [List.append_assoc]]
  rw [litPat, matchesPat_lit_append]
  rw [matchesPat_digits_append' 4 _ h4 (jsToString_all_digits year)]
  rw [litPat, matchesPat_lit_append]
  rw [matchesPat_digits_append' 4 _ hpad.1 hpad.2]
  rfl

lemma matchesPat_flat (tag : String) (w m : Nat) (hw : 1 ≤ w) (hm : m < 10 ^ w) :
    matchesPat (litPat tag ++ List.replicate w PatItem.dig)
      ((tag ++ padStart w (jsToString m)).data) = true := by
  have hpad := padded_digits_shape w m hw hm
  rw [show ((tag ++ padStart w (jsToString m)) : String).data
      = tag.data ++ ((padStart w (jsToString m)).data ++ []) by
    rw [show ∀ a b : String, (a ++ b).data = a.data ++ b.data from fun a b => rfl]; simp]
  rw [show litPat tag ++ List.replicate w PatItem.dig
      = litPat tag ++ (List.replicate w PatItem.dig ++ []) by simp]
  rw [litPat, matchesPat_lit_append]
  rw [matchesPat_digits_append' w _ hpad.1 hpad.2]
  rfl

/-- The code start of the customer scope of a calendar year. -/
def customerScope (year : Nat) : String := "KL-" ++ jsToString year ++ "-"

/-- The code start of the work-order scope of a calendar year. -/
def orderScope (year : Nat) : String := "WB-" ++ jsToString year ++ "-"

/-- The code start of the invoice scope of a calendar year. -/
def invoiceScope (year : Nat) : String := "F-" ++ jsToString year ++ "-"

/-- The code start of the global material scope. -/
def articleScope : String := "ART-"

lemma customerScope_first (year : Nat) :
    customerScope year ++ "0001" = scopedCode (customerScope year) 4 1 := by
  unfold scopedCode
  rw [padStart_one_width4]

lemma orderScope_first (year : Nat) :
    orderScope year ++ "0001" = scopedCode (orderScope year) 4 1 := by
  unfold scopedCode
  rw [padStart_one_width4]

lemma invoiceScope_first (year : Nat) :
    invoiceScope year ++ "0001" = scopedCode (invoiceScope year) 4 1 := by
  unfold scopedCode
  rw [padStart_one_width4]

lemma articleScope_first : articleScope ++ "000001" = scopedCode articleScope 6 1 := by
  unfold scopedCode
  rw [padStart_one_width6]

lemma genericNext_not_starts (pfx : String) (w : Nat) (first s : String)
    (h : jsStartsWith s pfx = false) :
    genericNext pfx w first (some s) = pfx ++ first := by
  rw [genericNext_some, if_neg (by simp [h])]

lemma genericNext_parse_none (pfx : String) (w : Nat) (first s : String)
    (h1 : jsStartsWith s pfx = true)
    (h2 : jsParseInt (jsSubstring s pfx.data.length) = none) :
    genericNext pfx w first (some s) = pfx ++ first := by
  rw [genericNext_some, if_pos h1, h2]

/-- The latest code in the scope does not carry a suffix that parseInt reads
as a negative number.  Every code the generator itself produced satisfies
this, as do an absent row, a foreign-scope code and an unparsable suffix;
the excluded case (a negative suffix planted through an update, see C3)
makes the generator emit a code outside every pattern. -/
def latestNonNegative (pfx : String) : Option String → Prop
  | none => True
  | some s => jsStartsWith s pfx = true →
      ∀ z : Int, jsParseInt (jsSubstring s pfx.data.length) = some z → 0 ≤ z

/-- Every value the generic generator returns from a latest code without a
negative suffix is the scope start followed by a padded positive sequence
number. -/
lemma genericNext_form (pfx : String) (w : Nat) (first : String)
    (hfirst : pfx ++ first = scopedCode pfx w 1) (latest : Option String)
    (hnn : latestNonNegative pfx latest) :
    ∃ m, m ≠ 0 ∧ genericNext pfx w first latest = scopedCode pfx w m := by
  match latest with
  | none => exact ⟨1, one_ne_zero, hfirst⟩
  | some s =>
    rw [genericNext_some]
    by_cases h : jsStartsWith s pfx = true
    · rw [if_pos h]
      match hp : jsParseInt (jsSubstring s pfx.data.length) with
      | some z =>
        have hz : 0 ≤ z := hnn h z hp
        refine ⟨z.toNat + 1, Nat.succ_ne_zero _, ?_⟩
        show pfx ++ padStart w (jsIntToString (z + 1)) = scopedCode pfx w (z.toNat + 1)
        unfold scopedCode
        congr 2
        unfold jsIntToString
        rw [if_neg (by omega)]
        congr 1
        omega
      | none => exact ⟨1, one_ne_zero, hfirst⟩
    · rw [if_neg h]
      exact ⟨1, one_ne_zero, hfirst⟩

/-- The order numbers MemStorage.createWorkOrder assigns when iterated from a
given counter value. -/
lemma memCreateWorkOrders_codes (now : JsDate) (year : Nat) (ds : List InsertWorkOrder) :
    ∀ counter : Nat,
    (MemStorage.createWorkOrders now year counter ds).map WorkOrder.orderNumber
      = (List.range ds.length).map (fun k => scopedCode (orderScope year) 4 (counter + k)) := by
  induction ds with
  | nil => intro counter; rfl
  | cons d t ih =>
    intro counter
    rw [MemStorage.createWorkOrders, List.map_cons, List.length_cons,
      List.range_succ_eq_map, List.map_cons, List.map_map, ih (counter + 1)]
    congr 1
    apply List.map_congr_left
    intro k _
    show scopedCode (orderScope year) 4 (counter + 1 + k)
      = scopedCode (orderScope year) 4 (counter + (k + 1))
    congr 1
    omega

lemma memWorkOrders_suffixVals (now : JsDate) (year : Nat) (ds : List InsertWorkOrder) :
    ((MemStorage.createWorkOrders now year 1 ds).map WorkOrder.orderNumber).filterMap
        (codeSuffixVal (orderScope year))
      = (List.range ds.length).map (fun k : Nat => ((k : Int) + 1)) := by
  rw [memCreateWorkOrders_codes now year ds 1, filterMap_map_fn]
  have h : (fun k => codeSuffixVal (orderScope year) (scopedCode (orderScope year) 4 (1 + k)))
      = (fun k : Nat => some ((k : Int) + 1)) := by
    funext k
    rw [codeSuffixVal_scopedCode _ _ _ (by omega)]
    congr 1
    omega
  rw [h, filterMap_some_fn]

/-- C1: starting from an empty table and creating N records sequentially in
one calendar year, each year-scoped generator (customer, work order, invoice)
assigns codes whose numeric suffixes in creation order are exactly
1, 2, ..., N — strictly increasing with no duplicates — and
MemStorage.createWorkOrder does the same via its id counter. -/
theorem C1_year_scoped_codes_sequential (year N : Nat) :
    ((createSequence (fun latest => DatabaseStorage.generateCustomerNumber latest year) N).filterMap
        (codeSuffixVal (customerScope year)) = (List.range N).map (fun k : Nat => ((k : Int) + 1)))
    ∧ ((createSequence (fun latest => DatabaseStorage.generateCustomerNumber latest year) N).filterMap
        (codeSuffixVal (customerScope year))).Pairwise (· < ·)
    ∧ ((createSequence (fun latest => DatabaseStorage.generateOrderNumber latest year) N).filterMap
        (codeSuffixVal (orderScope year)) = (List.range N).map (fun k : Nat => ((k : Int) + 1)))
    ∧ ((createSequence (fun latest => DatabaseStorage.generateOrderNumber latest year) N).filterMap
        (codeSuffixVal (orderScope year))).Pairwise (· < ·)
    ∧ ((createSequence (fun latest => DatabaseStorage.generateInvoiceNumber latest year) N).filterMap
        (codeSuffixVal (invoiceScope year)) = (List.range N).map (fun k : Nat => ((k : Int) + 1)))
    ∧ ((createSequence (fun latest => DatabaseStorage.generateInvoiceNumber latest year) N).filterMap
        (codeSuffixVal (invoiceScope year))).Pairwise (· < ·)
    ∧ (∀ (now : JsDate) (ds : List InsertWorkOrder),
        ((MemStorage.createWorkOrders now year 1 ds).map WorkOrder.orderNumber).filterMap
            (codeSuffixVal (orderScope year))
          = (List.range ds.length).map (fun k : Nat => ((k : Int) + 1))
        ∧ (((MemStorage.createWorkOrders now year 1 ds).map WorkOrder.orderNumber).filterMap
            (codeSuffixVal (orderScope year))).Pairwise (· < ·)) := by
  have hc : (fun latest => DatabaseStorage.generateCustomerNumber latest year)
      = genericNext (customerScope year) 4 "0001" := funext fun l => rfl
  have ho : (fun latest => DatabaseStorage.generateOrderNumber latest year)
      = genericNext (orderScope year) 4 "0001" := funext fun l => rfl
  have hi : (fun latest => DatabaseStorage.generateInvoiceNumber latest year)
      = genericNext (invoiceScope year) 4 "0001" := funext fun l => rfl
  refine ⟨?_, ?_, ?_, ?_, ?_, ?_, ?_⟩
  · rw [hc]
    exact suffixVals_createSequence _ _ _ (customerScope_first year) N
  · rw [hc]
    exact pairwise_suffix_createSequence _ _ _ (customerScope_first year) N
  · rw [ho]
    exact suffixVals_createSequence _ _ _ (orderScope_first year) N
  · rw [ho]
    exact pairwise_suffix_createSequence _ _ _ (orderScope_first year) N
  · rw [hi]
    exact suffixVals_createSequence _ _ _ (invoiceScope_first year) N
  · rw [hi]
    exact pairwise_suffix_createSequence _ _ _ (invoiceScope_first year) N
  · intro now ds
    refine ⟨memWorkOrders_suffixVals now year ds, ?_⟩
    rw [memWorkOrders_suffixVals now year ds]
    refine (List.pairwise_lt_range ds.length).map _ (fun a b hab => ?_)
    show (a : Int) + 1 < (b : Int) + 1
    omega

/-- A concrete valid customer draft. -/
def exampleInsertCustomer : InsertCustomer :=
  { customerNumber := "", name := "Jan Jansen", type := "Particulier",
    street := "Dorpsstraat 1", postalCode := "1234 AB", city := "Utrecht",
    email := none, phone := none, status := none }

/-- A concrete valid material draft. -/
def exampleInsertMaterial : InsertMaterial :=
  { articleNumber := "", name := "Cv-ketel", brand := none, category := "Verwarming",
    price := 100, stock := none, minStock := none, supplier := none }

/-- A concrete valid work-order draft. -/
def exampleInsertWorkOrder : InsertWorkOrder :=
  { orderNumber := "", title := "Ketel onderhoud", description := none, customerId := 1,
    date := ⟨2025, 0⟩, status := none, laborHours := none, notes := none,
    materials := none, photos := none }

/-- C2 counterexample: the first customer and material MemStorage creates get
the codes KL-00001 and ART-00001, which match neither KL-YYYY-dddd nor
ART-dddddd, so not every code a create operation returns matches the claimed
pattern of its class. -/
theorem C2_counterexample_mem_codes :
    (MemStorage.createCustomer ⟨2025, 0⟩ 1 exampleInsertCustomer).customerNumber = "KL-00001"
    ∧ matchesPat klPattern ("KL-00001".data) = false
    ∧ (MemStorage.createMaterial ⟨2025, 0⟩ 1 exampleInsertMaterial).articleNumber = "ART-00001"
    ∧ matchesPat artPattern ("ART-00001".data) = false := by
  refine ⟨by decide, by decide, by decide, by decide⟩

/-- C2 (amended): codes created through DatabaseStorage match the claimed
patterns provided the latest code the generator reads does not carry a
suffix parseInt reads as negative — then every generator output is the scope
start plus a padded positive sequence number, and such a code matches
KL-YYYY-dddd / WB-YYYY-dddd / F-YYYY-dddd (when the year has four digits and
the sequence number fits in four digits) respectively ART-dddddd (sequence
number within six digits).  The excluded case is real: from latest
KL-2025--123 the generator emits KL-2025--122, which matches no pattern.
MemStorage work-order and invoice codes match the claimed patterns as well,
but MemStorage customer and material codes instead match KL-ddddd and
ART-ddddd. -/
theorem C2_code_format_amended :
    (∀ (latest : Option String) (year : Nat), latestNonNegative (customerScope year) latest →
      ∃ m, m ≠ 0
      ∧ DatabaseStorage.generateCustomerNumber latest year = scopedCode (customerScope year) 4 m)
    ∧ (∀ (latest : Option String) (year : Nat), latestNonNegative (orderScope year) latest →
      ∃ m, m ≠ 0
      ∧ DatabaseStorage.generateOrderNumber latest year = scopedCode (orderScope year) 4 m)
    ∧ (∀ (latest : Option String) (year : Nat), latestNonNegative (invoiceScope year) latest →
      ∃ m, m ≠ 0
      ∧ DatabaseStorage.generateInvoiceNumber latest year = scopedCode (invoiceScope year) 4 m)
    ∧ (∀ latest : Option String, latestNonNegative articleScope latest →
      ∃ m, m ≠ 0
      ∧ DatabaseStorage.generateArticleNumber latest = scopedCode articleScope 6 m)
    ∧ (DatabaseStorage.generateCustomerNumber (some "KL-2025--123") 2025 = "KL-2025--122")
    ∧ (matchesPat klPattern ("KL-2025--122".data) = false)
    ∧ (∀ year m : Nat, 1000 ≤ year → year ≤ 9999 → m < 10 ^ 4 →
      matchesPat klPattern (scopedCode (customerScope year) 4 m).data = true)
    ∧ (∀ year m : Nat, 1000 ≤ year → year ≤ 9999 → m < 10 ^ 4 →
      matchesPat wbPattern (scopedCode (orderScope year) 4 m).data = true)
    ∧ (∀ year m : Nat, 1000 ≤ year → year ≤ 9999 → m < 10 ^ 4 →
      matchesPat fPattern (scopedCode (invoiceScope year) 4 m).data = true)
    ∧ (∀ m : Nat, m < 10 ^ 6 →
      matchesPat artPattern (scopedCode articleScope 6 m).data = true)
    ∧ (∀ (now : JsDate) (counter : Nat) (d : InsertCustomer), counter < 10 ^ 5 →
      matchesPat kl5Pattern ((MemStorage.createCustomer now counter d).customerNumber).data = true)
    ∧ (∀ (now : JsDate) (counter : Nat) (d : InsertMaterial), counter < 10 ^ 5 →
      matchesPat art5Pattern ((MemStorage.createMaterial now counter d).articleNumber).data = true)
    ∧ (∀ (now : JsDate) (year counter : Nat) (d : InsertWorkOrder),
        1000 ≤ year → year ≤ 9999 → counter < 10 ^ 4 →
      matchesPat wbPattern ((MemStorage.createWorkOrder now year counter d).orderNumber).data = true)
    ∧ (∀ (now : JsDate) (year counter : Nat) (d : InsertInvoice),
        1000 ≤ year → year ≤ 9999 → counter < 10 ^ 4 →
      matchesPat fPattern ((MemStorage.createInvoice now year counter d).invoiceNumber).data = true) := by
  refine ⟨?_, ?_, ?_, ?_, by decide, by decide, ?_, ?_, ?_, ?_, ?_, ?_, ?_, ?_⟩
  · intro latest year hnn
    exact genericNext_form _ _ _ (customerScope_first year) latest hnn
  · intro latest year hnn
    exact genericNext_form _ _ _ (orderScope_first year) latest hnn
  · intro latest year hnn
    exact genericNext_form _ _ _ (invoiceScope_first year) latest hnn
  · intro latest hnn
    exact genericNext_form _ _ _ articleScope_first latest hnn
  · intro year m hy1 hy2 hm
    exact matchesPat_year_scoped "KL-" year m hy1 hy2 hm
  · intro year m hy1 hy2 hm
    exact matchesPat_year_scoped "WB-" year m hy1 hy2 hm
  · intro year m hy1 hy2 hm
    exact matchesPat_year_scoped "F-" year m hy1 hy2 hm
  · intro m hm
    exact matchesPat_flat "ART-" 6 m (by omega) hm
  · intro now counter d hc
    exact matchesPat_flat "KL-" 5 counter (by omega) hc
  · intro now counter d hc
    exact matchesPat_flat "ART-" 5 counter (by omega) hc
  · intro now year counter d hy1 hy2 hc
    exact matchesPat_year_scoped "WB-" year counter hy1 hy2 hc
  · intro now year counter d hy1 hy2 hc
    exact matchesPat_year_scoped "F-" year counter hy1 hy2 hc

/-- Witness for C2 (amended) at concrete inputs. -/
theorem C2_code_format_witness :
    (∃ m, m ≠ 0
      ∧ DatabaseStorage.generateCustomerNumber none 2025 = scopedCode (customerScope 2025) 4 m)
    ∧ matchesPat klPattern (scopedCode (customerScope 2025) 4 1).data = true
    ∧ matchesPat wbPattern
        ((MemStorage.createWorkOrder ⟨2025, 0⟩ 2025 1 exampleInsertWorkOrder).orderNumber).data = true
    ∧ matchesPat kl5Pattern
        ((MemStorage.createCustomer ⟨2025, 0⟩ 1 exampleInsertCustomer).customerNumber).data = true :=
  ⟨(C2_code_format_amended.1) none 2025 trivial,
   (C2_code_format_amended.2.2.2.2.2.2.1) 2025 1 (by decide) (by decide) (by decide),
   (C2_code_format_amended.2.2.2.2.2.2.2.2.2.2.2.2.1) ⟨2025, 0⟩ 2025 1 exampleInsertWorkOrder
     (by decide) (by decide) (by decide),
   (C2_code_format_amended.2.2.2.2.2.2.2.2.2.2.1) ⟨2025, 0⟩ 1 exampleInsertCustomer (by decide)⟩

/-- C6: whenever the latest code does not parse against the expected scope
start — no row at all, a code with the wrong scope start, or a suffix without
a leading digit — each generator returns the scope's first value (suffix
0001, or 000001 for the material scope) instead of raising an error. -/
theorem C6_parse_failure_fallback :
    (∀ year : Nat, DatabaseStorage.generateCustomerNumber none year
      = customerScope year ++ "0001")
    ∧ (∀ (year : Nat) (s : String), jsStartsWith s (customerScope year) = false →
      DatabaseStorage.generateCustomerNumber (some s) year = customerScope year ++ "0001")
    ∧ (∀ (year : Nat) (s : String), jsStartsWith s (customerScope year) = true →
      jsParseInt (jsSubstring s (customerScope year).data.length) = none →
      DatabaseStorage.generateCustomerNumber (some s) year = customerScope year ++ "0001")
    ∧ (∀ year : Nat, DatabaseStorage.generateOrderNumber none year
      = orderScope year ++ "0001")
    ∧ (∀ (year : Nat) (s : String), jsStartsWith s (orderScope year) = false →
      DatabaseStorage.generateOrderNumber (some s) year = orderScope year ++ "0001")
    ∧ (∀ (year : Nat) (s : String), jsStartsWith s (orderScope year) = true →
      jsParseInt (jsSubstring s (orderScope year).data.length) = none →
      DatabaseStorage.generateOrderNumber (some s) year = orderScope year ++ "0001")
    ∧ (∀ year : Nat, DatabaseStorage.generateInvoiceNumber none year
      = invoiceScope year ++ "0001")
    ∧ (∀ (year : Nat) (s : String), jsStartsWith s (invoiceScope year) = false →
      DatabaseStorage.generateInvoiceNumber (some s) year = invoiceScope year ++ "0001")
    ∧ (∀ (year : Nat) (s : String), jsStartsWith s (invoiceScope year) = true →
      jsParseInt (jsSubstring s (invoiceScope year).data.length) = none →
      DatabaseStorage.generateInvoiceNumber (some s) year = invoiceScope year ++ "0001")
    ∧ (DatabaseStorage.generateArticleNumber none = articleScope ++ "000001")
    ∧ (∀ s : String, jsStartsWith s articleScope = false →
      DatabaseStorage.generateArticleNumber (some s) = articleScope ++ "000001")
    ∧ (∀ s : String, jsStartsWith s articleScope = true →
      jsParseInt (jsSubstring s articleScope.data.length) = none →
      DatabaseStorage.generateArticleNumber (some s) = articleScope ++ "000001") := by
  refine ⟨fun year => rfl, ?_, ?_, fun year => rfl, ?_, ?_, fun year => rfl, ?_, ?_, rfl, ?_, ?_⟩
  · intro year s h
    exact genericNext_not_starts (customerScope year) 4 "0001" s h
  · intro year s h1 h2
    exact genericNext_parse_none (customerScope year) 4 "0001" s h1 h2
  · intro year s h
    exact genericNext_not_starts (orderScope year) 4 "0001" s h
  · intro year s h1 h2
    exact genericNext_parse_none (orderScope year) 4 "0001" s h1 h2
  · intro year s h
    exact genericNext_not_starts (invoiceScope year) 4 "0001" s h
  · intro year s h1 h2
    exact genericNext_parse_none (invoiceScope year) 4 "0001" s h1 h2
  · intro s h
    exact genericNext_not_starts articleScope 6 "000001" s h
  · intro s h1 h2
    exact genericNext_parse_none articleScope 6 "000001" s h1 h2

/-- Witness for C6 at concrete inputs: a latest code from another scope and a
latest code whose suffix has no digits parseInt accepts both restart the
customer sequence. -/
theorem C6_parse_failure_witness :
    DatabaseStorage.generateCustomerNumber (some "WB-2025-0001") 2025
      = customerScope 2025 ++ "0001"
    ∧ DatabaseStorage.generateCustomerNumber (some "KL-2025-abcd") 2025
      = customerScope 2025 ++ "0001" :=
  ⟨C6_parse_failure_fallback.2.1 2025 "WB-2025-0001" (by decide),
   C6_parse_failure_fallback.2.2.1 2025 "KL-2025-abcd" (by decide) (by decide)⟩

/-- A stored customer record. -/
def exampleCustomer : Customer :=
  { id := 1, customerNumber := "KL-2025-0001", name := "Jan Jansen", type := "Particulier",
    street := "Dorpsstraat 1", postalCode := "1234 AB", city := "Utrecht",
    email := none, phone := none, status := "Actief", createdAt := ⟨2025, 0⟩ }

/-- A partial customer payload that carries a different customer number. -/
def codeOverwritePatch : CustomerPatch :=
  { customerNumber := some "KL-2025-9999", name := none, type := none, street := none,
    postalCode := none, city := none, email := none, phone := none, status := none }

/-- C3 counterexample: a partial update whose payload contains a different
customerNumber does change the stored code, in MemStorage (spread merge) and
in DatabaseStorage (set with the payload's columns) alike. -/
theorem C3_counterexample_code_overwritten :
    ((MemStorage.updateCustomer [exampleCustomer] 1 codeOverwritePatch).1.map
        Customer.customerNumber) = some "KL-2025-9999"
    ∧ (DatabaseStorage.updateCustomer ⟨false⟩ [exampleCustomer] 1 codeOverwritePatch).map
        Customer.customerNumber = some "KL-2025-9999"
    ∧ exampleCustomer.customerNumber = "KL-2025-0001"
    ∧ ("KL-2025-9999" : String) ≠ "KL-2025-0001" := by
  refine ⟨by decide, by decide, by decide, by decide⟩

/-- C3 (amended): an update leaves the code field unchanged exactly when the
partial payload does not itself contain the code field — with one exception:
DatabaseStorage.updateWorkOrder never writes the order number, even when the
payload carries one, because its SET-clause builder has no orderNumber
branch. -/
theorem C3_update_preserves_code_amended :
    (∀ (c : Customer) (p : CustomerPatch), p.customerNumber = none →
      (mergeCustomer c p).customerNumber = c.customerNumber)
    ∧ (∀ (m : Material) (p : MaterialPatch), p.articleNumber = none →
      (mergeMaterial m p).articleNumber = m.articleNumber)
    ∧ (∀ (i : Invoice) (p : InvoicePatch), p.invoiceNumber = none →
      (mergeInvoice i p).invoiceNumber = i.invoiceNumber)
    ∧ (∀ (w : WorkOrder) (p : WorkOrderPatch), p.orderNumber = none →
      (mergeWorkOrder w p).orderNumber = w.orderNumber)
    ∧ (∀ (w : WorkOrder) (p : WorkOrderPatch),
      (DatabaseStorage.applyWorkOrderPatch w p).orderNumber = w.orderNumber)
    ∧ (∀ (env : DbEnv) (workOrders : List WorkOrder) (id : Nat) (p : WorkOrderPatch)
        (w : WorkOrder), DatabaseStorage.updateWorkOrder env workOrders id p = some w →
      ∃ w0, workOrders.find? (fun x => x.id == id) = some w0
        ∧ w.orderNumber = w0.orderNumber) := by
  refine ⟨?_, ?_, ?_, ?_, fun w p => rfl, ?_⟩
  · intro c p h
    unfold mergeCustomer
    rw [h]
    rfl
  · intro m p h
    unfold mergeMaterial
    rw [h]
    rfl
  · intro i p h
    unfold mergeInvoice
    rw [h]
    rfl
  · intro w p h
    unfold mergeWorkOrder
    rw [h]
    rfl
  · intro env workOrders id p w h
    unfold DatabaseStorage.updateWorkOrder at h
    by_cases hf : env.fail
    · rw [if_pos hf] at h
      exact absurd h (by simp)
    · rw [if_neg hf] at h
      match hfind : workOrders.find? (fun x => x.id == id) with
      | none => rw [hfind] at h; exact absurd h (by simp)
      | some w0 =>
        rw [hfind] at h
        refine ⟨w0, hfind, ?_⟩
        have hw : w = DatabaseStorage.applyWorkOrderPatch w0 p := by
          injection h with h'
          exact h'.symm
        rw [hw]
        rfl

/-- A stored work order, as DatabaseStorage persists a fresh one. -/
def exampleWorkOrder : WorkOrder :=
  { id := 1, orderNumber := "WB-2025-0001", title := "Ketel onderhoud", description := none,
    customerId := 1, date := ⟨2025, 2⟩, status := "Ingepland", laborHours := some 0,
    notes := some "", materials := some [], photos := none, createdAt := ⟨2025, 2⟩ }

/-- Witness for C3 (amended): a payload without a code field leaves the code
unchanged, and the database work-order update keeps the order number even
against the overwriting payload shape. -/
theorem C3_update_preserves_code_witness :
    (mergeCustomer exampleCustomer CustomerPatch.empty).customerNumber
      = exampleCustomer.customerNumber
    ∧ ∃ w0, ([exampleWorkOrder].find? (fun x => x.id == 1)) = some w0
        ∧ exampleWorkOrder.orderNumber = w0.orderNumber :=
  ⟨C3_update_preserves_code_amended.1 exampleCustomer CustomerPatch.empty rfl,
   C3_update_preserves_code_amended.2.2.2.2.2 ⟨false⟩ [exampleWorkOrder] 1
     { orderNumber := some "WB-9999-9999", title := none, description := none,
       customerId := none, date := none, status := none, laborHours := none,
       notes := none, materials := none, photos := none }
     (DatabaseStorage.applyWorkOrderPatch exampleWorkOrder _) rfl⟩

/-- A complete request carrying notes, labor hours and one photo. -/
def exampleCompleteBody : CompleteBody :=
  { notes := some "Ketel vervangen", laborHours := some 2, photos := some ["foto1"] }

/-- C4: completing an existing work order through the database-backed storage
sets status, notes and laborHours as submitted and leaves the other fields
unchanged, but the submitted photos are silently dropped — the stored record
still has no photos — while the spread-based MemStorage merge of the very
same payload would store them. -/
theorem C4_complete_drops_photos :
    completeWorkOrderRoute ⟨false⟩ [exampleWorkOrder] 1 exampleCompleteBody
      = RouteOutcome.ok { exampleWorkOrder with
          status := "Voltooid", notes := some "Ketel vervangen", laborHours := some 2 }
    ∧ ({ exampleWorkOrder with
          status := "Voltooid", notes := some "Ketel vervangen",
          laborHours := some 2 } : WorkOrder).photos = none
    ∧ exampleCompleteBody.photos = some ["foto1"]
    ∧ (mergeWorkOrder exampleWorkOrder
        { orderNumber := none, title := none, description := none, customerId := none,
          date := none, status := some "Voltooid", laborHours := exampleCompleteBody.laborHours,
          notes := exampleCompleteBody.notes, materials := none,
          photos := exampleCompleteBody.photos }).photos = some ["foto1"] := by
  refine ⟨by decide, by decide, by decide, by decide⟩

/-- A valid complete request with zero labor hours and no photos. -/
def zeroHoursCompleteBody : CompleteBody :=
  { notes := some "klaar", laborHours := some 0, photos := some [] }

/-- C5 counterexample: when the storage layer fails, the complete route
reports the not-found outcome even though the work order id exists, so the
not-found outcome is not reported exactly when the id does not exist — an
operational failure is folded into it. -/
theorem C5_counterexample_failure_as_notfound :
    completeWorkOrderRoute ⟨true⟩ [exampleWorkOrder] 1 zeroHoursCompleteBody
      = RouteOutcome.notFound "Work order not found"
    ∧ ([exampleWorkOrder].find? (fun w => w.id == 1)) = some exampleWorkOrder := by
  refine ⟨by decide, by decide⟩

/-- C5 (amended): an absent laborHours is rejected as a caller error before
anything else (zero is accepted, since only undefined is checked); assuming
the storage layer does not fail, the route reports not-found exactly when the
id does not exist, and otherwise answers 200 with the record updated to
status Voltooid with the submitted notes, laborHours and photos payload
passed through — a storage failure is reported as not-found as well. -/
theorem C5_complete_outcomes_amended (env : DbEnv) (workOrders : List WorkOrder)
    (id : Nat) (body : CompleteBody) :
    (body.laborHours = none →
      completeWorkOrderRoute env workOrders id body
        = RouteOutcome.badRequest "Labor hours are required")
    ∧ (env.fail = false → body.laborHours.isSome = true →
      ((workOrders.find? (fun w => w.id == id) = none ↔
        completeWorkOrderRoute env workOrders id body
          = RouteOutcome.notFound "Work order not found")
      ∧ (∀ w, workOrders.find? (fun w => w.id == id) = some w →
        completeWorkOrderRoute env workOrders id body
          = RouteOutcome.ok (DatabaseStorage.applyWorkOrderPatch w
              { orderNumber := none, title := none, description := none, customerId := none,
                date := none, status := some "Voltooid", laborHours := body.laborHours,
                notes := body.notes, materials := none, photos := body.photos }))))
    ∧ (env.fail = true → body.laborHours.isSome = true →
      completeWorkOrderRoute env workOrders id body
        = RouteOutcome.notFound "Work order not found") := by
  refine ⟨?_, ?_, ?_⟩
  · intro h
    unfold completeWorkOrderRoute
    rw [h]
  · intro hfail hlab
    match hb : body.laborHours with
    | none => rw [hb] at hlab; exact absurd hlab (by decide)
    | some q =>
      constructor
      · constructor
        · intro hfind
          unfold completeWorkOrderRoute
          rw [hb]
          unfold DatabaseStorage.updateWorkOrder
          rw [if_neg (by rw [hfail]; exact Bool.false_ne_true), hfind]
        · intro hroute
          unfold completeWorkOrderRoute at hroute
          rw [hb] at hroute
          unfold DatabaseStorage.updateWorkOrder at hroute
          rw [if_neg (by rw [hfail]; exact Bool.false_ne_true)] at hroute
          match hfind : workOrders.find? (fun w => w.id == id) with
          | none => exact hfind
          | some w =>
            rw [hfind] at hroute
            exact absurd hroute (by simp)
      · intro w hfind
        unfold completeWorkOrderRoute
        rw [hb]
        unfold DatabaseStorage.updateWorkOrder
        rw [if_neg (by rw [hfail]; exact Bool.false_ne_true), hfind]
  · intro hfail hlab
    match hb : body.laborHours with
    | none => rw [hb] at hlab; exact absurd hlab (by decide)
    | some q =>
      unfold completeWorkOrderRoute
      rw [hb]
      unfold DatabaseStorage.updateWorkOrder
      rw [if_pos (by rw [hfail])]

/-- Witness for C5 (amended) at concrete inputs: zero labor hours and an
empty photo list complete an existing work order, a missing laborHours is a
400, and a missing id is a 404. -/
theorem C5_complete_outcomes_witness :
    completeWorkOrderRoute ⟨false⟩ [exampleWorkOrder] 1 zeroHoursCompleteBody
      = RouteOutcome.ok (DatabaseStorage.applyWorkOrderPatch exampleWorkOrder
          { orderNumber := none, title := none, description := none, customerId := none,
            date := none, status := some "Voltooid",
            laborHours := zeroHoursCompleteBody.laborHours,
            notes := zeroHoursCompleteBody.notes, materials := none,
            photos := zeroHoursCompleteBody.photos })
    ∧ completeWorkOrderRoute ⟨false⟩ [exampleWorkOrder] 1
        { notes := some "x", laborHours := none, photos := none }
      = RouteOutcome.badRequest "Labor hours are required"
    ∧ completeWorkOrderRoute ⟨false⟩ [exampleWorkOrder] 2 zeroHoursCompleteBody
      = RouteOutcome.notFound "Work order not found" :=
  ⟨((C5_complete_outcomes_amended ⟨false⟩ [exampleWorkOrder] 1 zeroHoursCompleteBody).2.1
      rfl (by decide)).2 exampleWorkOrder (by decide),
   (C5_complete_outcomes_amended ⟨false⟩ [exampleWorkOrder] 1
      { notes := some "x", laborHours := none, photos := none }).1 rfl,
   ((C5_complete_outcomes_amended ⟨false⟩ [exampleWorkOrder] 2 zeroHoursCompleteBody).2.1
      rfl (by decide)).1.mp (by decide)⟩

/-- C7 counterexample: when the storage layer fails during the update query,
the customer update route answers not-found, not a 500-class response — the
repository method swallows the operational failure into the absent value. -/
theorem C7_counterexample_failure_not_500 :
    putCustomerRoute ⟨true⟩ [exampleCustomer] 1 CustomerPatch.empty
      = RouteOutcome.notFound "Customer not found"
    ∧ (RouteOutcome.notFound "Customer not found" : RouteOutcome Customer)
      ≠ RouteOutcome.serverError "Error updating customer" := by
  refine ⟨by decide, by decide⟩

/-- C7 (amended): the read, update and delete repository methods never throw
and return the explicit absent value (undefined, an empty list, false) both
when the id does not exist and when the storage layer fails, so the HTTP
boundary answers 404 (or an empty 200) in both situations and the update
route can never answer 500; only the create methods rethrow, so exactly a
failing create reaches the boundary as a 500. -/
theorem C7_absent_value_amended (env : DbEnv) (customers : List Customer) (id : Nat)
    (p : CustomerPatch) (now : JsDate) (year : Nat) (d : InsertCustomer) :
    (DatabaseStorage.getCustomer env customers id = none ↔
      env.fail = true ∨ customers.find? (fun c => c.id == id) = none)
    ∧ (DatabaseStorage.updateCustomer env customers id p = none ↔
      env.fail = true ∨ customers.find? (fun c => c.id == id) = none)
    ∧ (DatabaseStorage.deleteCustomer env customers id = false ↔
      env.fail = true ∨ customers.any (fun c => c.id == id) = false)
    ∧ (env.fail = true → DatabaseStorage.getAllCustomers env customers = [])
    ∧ (env.fail = true →
      putCustomerRoute env customers id p = RouteOutcome.notFound "Customer not found")
    ∧ (∀ msg, putCustomerRoute env customers id p ≠ RouteOutcome.serverError msg)
    ∧ (postCustomerRoute env now year customers d
        = RouteOutcome.serverError "Error creating customer" ↔ env.fail = true) := by
  by_cases hf : env.fail = true
  · refine ⟨?_, ?_, ?_, ?_, ?_, ?_, ?_⟩
    · unfold DatabaseStorage.getCustomer
      rw [if_pos hf]
      simp [hf]
    · unfold DatabaseStorage.updateCustomer
      rw [if_pos hf]
      simp [hf]
    · unfold DatabaseStorage.deleteCustomer
      rw [if_pos hf]
      simp [hf]
    · intro _
      unfold DatabaseStorage.getAllCustomers
      rw [if_pos hf]
    · intro _
      unfold putCustomerRoute DatabaseStorage.updateCustomer
      rw [if_pos hf]
    · intro msg
      unfold putCustomerRoute DatabaseStorage.updateCustomer
      rw [if_pos hf]
      simp
    · unfold postCustomerRoute DatabaseStorage.createCustomer
      rw [if_pos hf]
      simp [hf]
  · have hf' : env.fail = false := by
      cases h : env.fail
      · rfl
      · exact absurd h hf
    refine ⟨?_, ?_, ?_, ?_, ?_, ?_, ?_⟩
    · unfold DatabaseStorage.getCustomer
      rw [if_neg hf]
      simp [hf']
    · unfold DatabaseStorage.updateCustomer
      rw [if_neg hf]
      constructor
      · intro h
        match hfind : customers.find? (fun c => c.id == id) with
        | none => exact Or.inr hfind
        | some c =>
          rw [hfind] at h
          exact absurd h (by simp)
      · intro h
        rcases h with h | h
        · exact absurd h hf
        · rw [h]
    · unfold DatabaseStorage.deleteCustomer
      rw [if_neg hf]
      simp [hf']
    · intro h
      exact absurd h hf
    · intro h
      exact absurd h hf
    · intro msg
      unfold putCustomerRoute DatabaseStorage.updateCustomer
      rw [if_neg hf]
      match hfind : customers.find? (fun c => c.id == id) with
      | none =>
        rw [hfind]
        simp
      | some c =>
        rw [hfind]
        simp
    · unfold postCustomerRoute DatabaseStorage.createCustomer
      rw [if_neg hf]
      simp [hf']

/-- Witness for C7 (amended) at concrete inputs: with a healthy storage a
missing id yields the absent value, and a failing storage turns create into a
500 while update still answers 404. -/
theorem C7_absent_value_witness :
    DatabaseStorage.updateCustomer ⟨false⟩ [exampleCustomer] 2 CustomerPatch.empty = none
    ∧ postCustomerRoute ⟨true⟩ ⟨2025, 0⟩ 2025 [exampleCustomer] exampleInsertCustomer
      = RouteOutcome.serverError "Error creating customer"
    ∧ putCustomerRoute ⟨true⟩ [exampleCustomer] 1 CustomerPatch.empty
      = RouteOutcome.notFound "Customer not found" :=
  ⟨(C7_absent_value_amended ⟨false⟩ [exampleCustomer] 2 CustomerPatch.empty ⟨2025, 0⟩ 2025
      exampleInsertCustomer).2.1.mpr (Or.inr (by decide)),
   (C7_absent_value_amended ⟨true⟩ [exampleCustomer] 1 CustomerPatch.empty ⟨2025, 0⟩ 2025
      exampleInsertCustomer).2.2.2.2.2.2.mpr rfl,
   (C7_absent_value_amended ⟨true⟩ [exampleCustomer] 1 CustomerPatch.empty ⟨2025, 0⟩ 2025
      exampleInsertCustomer).2.2.2.2.1 rfl⟩

/-- C8: the dashboard's work-order status buckets filter on the legacy
statuses Nieuw and In behandeling, so a work order in the domain status
Ingepland — the very status a fresh create receives — is counted in no
bucket and the bucket counts do not sum to totalWorkOrders. -/
theorem C8_status_buckets_miss_created_order :
    (DatabaseStorage.createWorkOrderRow ⟨2025, 4⟩ 1 "WB-2025-0001"
        exampleInsertWorkOrder).status = "Ingepland"
    ∧ (workOrdersByStatus [DatabaseStorage.createWorkOrderRow ⟨2025, 4⟩ 1 "WB-2025-0001"
          exampleInsertWorkOrder]).nieuw
      + (workOrdersByStatus [DatabaseStorage.createWorkOrderRow ⟨2025, 4⟩ 1 "WB-2025-0001"
          exampleInsertWorkOrder]).inBehandeling
      + (workOrdersByStatus [DatabaseStorage.createWorkOrderRow ⟨2025, 4⟩ 1 "WB-2025-0001"
          exampleInsertWorkOrder]).voltooid = 0
    ∧ totalWorkOrders [DatabaseStorage.createWorkOrderRow ⟨2025, 4⟩ 1 "WB-2025-0001"
          exampleInsertWorkOrder] = 1 := by
  refine ⟨by decide, by decide, by decide⟩

/-- The monthly revenue the specification prescribes for one month: the sum
of amount over the invoices of that month and year whose status is not
Concept. -/
def specMonthRevenue (currentYear : Int) (month : Nat) (invoices : List Invoice) : ℚ :=
  ((invoices.filter (fun inv => decide (inv.date.month = month ∧ inv.date.year = currentYear
      ∧ inv.status ≠ "Concept"))).map Invoice.amount).sum

lemma jsOrQ_some_zero (v : ℚ) : jsOrQ (some v) 0 = v := by
  show (if v = 0 then 0 else v) = v
  by_cases h : v = 0
  · rw [if_pos h, h]
  · rw [if_neg h]

lemma foldl_amount (l : List Invoice) : ∀ a : ℚ,
    l.foldl (fun sum inv => sum + jsOrQ (some inv.amount) 0) a
      = a + (l.map Invoice.amount).sum := by
  induction l with
  | nil => intro a; simp
  | cons i t ih =>
    intro a
    simp only [List.foldl_cons, List.map_cons, List.sum_cons]
    rw [ih, jsOrQ_some_zero]
    ring

lemma monthFilter_pred (currentYear : Int) (month : Nat) (inv : Invoice) :
    (inv.date.month == month && inv.date.year == currentYear && inv.status != "Concept")
      = decide (inv.date.month = month ∧ inv.date.year = currentYear
          ∧ inv.status ≠ "Concept") := by
  by_cases h1 : inv.date.month = month <;> by_cases h2 : inv.date.year = currentYear <;>
    by_cases h3 : inv.status = "Concept" <;> simp [h1, h2, h3]

/-- C9: the dashboard's monthlyRevenue entry for every month of the current
year is exactly the specification's sum — amounts of that month's invoices of
the current year that are not in Concept status — and an invoice in Concept
status contributes to no month. -/
theorem C9_monthly_revenue_correct (currentYear : Int) (invoices : List Invoice)
    (m : Nat) (hm : m < 12) :
    (monthlyRevenue currentYear invoices)[m]?
      = some (monthNames.getD m "", specMonthRevenue currentYear m invoices)
    ∧ (∀ inv : Invoice, inv.status = "Concept" →
      monthlyRevenue currentYear (inv :: invoices) = monthlyRevenue currentYear invoices) := by
  constructor
  · unfold monthlyRevenue
    rw [List.getElem?_map, List.getElem?_range hm]
    simp only [Option.map_some']
    congr 1
    have hfilter : invoices.filter (fun inv =>
          inv.date.month == m && inv.date.year == currentYear && inv.status != "Concept")
        = invoices.filter (fun inv => decide (inv.date.month = m
          ∧ inv.date.year = currentYear ∧ inv.status ≠ "Concept")) :=
      List.filter_congr (fun inv _ => monthFilter_pred currentYear m inv)
    rw [hfilter, foldl_amount]
    unfold specMonthRevenue
    rw [zero_add]
  · intro inv hconcept
    unfold monthlyRevenue
    apply List.map_congr_left
    intro month _
    have hpred : (inv.date.month == month && inv.date.year == currentYear
        && inv.status != "Concept") = false := by
      simp [hconcept]
    rw [List.filter_cons]
    rw [hpred]
    simp

/-- Witness for C9 at a concrete month and invoice list. -/
theorem C9_monthly_revenue_witness :
    (monthlyRevenue 2025 [])[0]? = some (monthNames.getD 0 "", specMonthRevenue 2025 0 []) :=
  (C9_monthly_revenue_correct 2025 [] 0 (by omega)).1

/-- C10: the database-backed work-order create binds the date column to the
server's NOW() — the persisted date equals the storage server's current time
and the draft's submitted date is discarded: two drafts that differ only in
their date produce identical rows, and the full create ignores it too. -/
theorem C10_create_workorder_date_is_now (now : JsDate) (newId : Nat)
    (orderNumber : String) (d : InsertWorkOrder) (d' : JsDate) :
    (DatabaseStorage.createWorkOrderRow now newId orderNumber d).date = now
    ∧ DatabaseStorage.createWorkOrderRow now newId orderNumber { d with date := d' }
      = DatabaseStorage.createWorkOrderRow now newId orderNumber d
    ∧ (∀ (env : DbEnv) (year : Nat) (workOrders : List WorkOrder),
      DatabaseStorage.createWorkOrder env now year workOrders { d with date := d' }
        = DatabaseStorage.createWorkOrder env now year workOrders d) :=
  ⟨rfl, rfl, fun _ _ _ => rfl⟩

end Planning
